import Mathlib

/-!
Verification of the amqp-migration relay against its specification.

The development shallowly embeds `src/runner.js` together with the archival
loggers (`src/logger/file-logger.js`, `src/logger/redis-logger.js`).
Asynchronous effects are made explicit: fallible external operations
(redis connect/set, file write, AMQP publish) are driven by a `World`
record of failure flags, and each JavaScript function becomes a pure Lean
function threading the relevant state.  JSON serialization of an Envelope
(`JSON.stringify` on store, `JSON.parse` on retrieval) is injective with
`parse` a left inverse on the values this program writes, so stores are
modelled as association lists keyed by id holding the Envelope itself.
-/

namespace AmqpMigration

/-- Broker message properties (headers, content-type, message-id, ...).
Only `messageId` is inspected by the program; the rest is carried opaquely. -/
structure AMQPProperties where
  messageId : Option String
  contentType : Option String
  headers : List (String × String)
deriving DecidableEq

/-- A delivery as handed to the consumer callback by the broker client:
`msg.channel?.id`, `msg.exchange`, `msg.routingKey`, `msg.properties`,
and `msg.bodyToString()`. -/
structure AMQPMessage where
  channelId : Option Nat
  exchange : String
  routingKey : String
  properties : AMQPProperties
  body : String
deriving DecidableEq

/-- The Message Envelope built by `formatMessage` in `src/runner.js`. -/
structure Envelope where
  channel : Option Nat
  exchange : String
  routingKey : String
  properties : AMQPProperties
  body : String
deriving DecidableEq

/-- Embedding of `formatMessage(msg)` from `src/runner.js`: copies
`msg.channel?.id`, `msg.exchange`, `msg.routingKey`, `msg.properties` and
`msg.bodyToString()` into a fresh object. -/
def formatMessage (msg : AMQPMessage) : Envelope :=
  { channel := msg.channelId
    exchange := msg.exchange
    routingKey := msg.routingKey
    properties := msg.properties
    body := msg.body }

/-- Embedding of `generateId()` from `src/runner.js`:
`String(Date.now())`, with the current millisecond clock passed in
explicitly as a natural number. -/
def generateId (now : Nat) : String :=
  toString now

/-- Failure flags for the fallible external operations a single
relay step can perform. -/
structure World where
  redisConnectFails : Bool
  redisSetFails : Bool
  fileWriteFails : Bool
  publishFails : Bool
deriving DecidableEq

/-- State of the `RedisLogger` instance from `src/logger/redis-logger.js`:
the `BaseLogger` enabled flag (constructor sets it to `!!redisUrl`), the
`started` flag, and the key-value content of the backing redis store. -/
structure RedisLogger where
  isEnabled : Bool
  started : Bool
  store : List (String × Envelope)
deriving DecidableEq

/-- Embedding of `RedisLogger.init`.  The source returns `true` after a
successful connect, `false` when the connect throws (disabling the logger)
or when the logger is disabled, and — because the `started` branch has no
return statement — `undefined` when `started` is already true.  The
`Option Bool` result records exactly this: `none` is `undefined`. -/
def RedisLogger.init (w : World) (s : RedisLogger) : RedisLogger × Option Bool :=
  if !s.started then
    if s.isEnabled then
      if w.redisConnectFails then
        ({ s with isEnabled := false }, some false)
      else
        ({ s with started := true }, some true)
    else
      (s, some false)
  else
    (s, none)

/-- Embedding of `RedisLogger.push(id, message)`.  The source awaits
`init()`; when the result is falsy (`false` or `undefined`) it only warns,
otherwise it runs `redis.set(id, JSON.stringify(message))`.  The boolean
in the result is `true` exactly when the call throws (a rejected
`redis.set`); the returned state is the logger state at that point. -/
def RedisLogger.push (w : World) (s : RedisLogger) (id : String) (m : Envelope) :
    RedisLogger × Bool :=
  match RedisLogger.init w s with
  | (s1, some true) =>
    if w.redisSetFails then (s1, true)
    else ({ s1 with store := (id, m) :: s1.store }, false)
  | (s1, _) => (s1, false)

/-- Embedding of `RedisLogger.get(id)`: after a truthy `init()` it reads
and JSON-parses the stored value; otherwise it returns `undefined`. -/
def RedisLogger.get (w : World) (s : RedisLogger) (id : String) :
    RedisLogger × Option Envelope :=
  match RedisLogger.init w s with
  | (s1, some true) => (s1, (s1.store.find? (fun p => p.1 == id)).map (·.2))
  | (s1, _) => (s1, none)

/-- State of the `FileLogger` instance from `src/logger/file-logger.js`:
the enabled flag, the configured base path, and the written files
(path to JSON content). -/
structure FileLogger where
  isEnabled : Bool
  logsPath : String
  files : List (String × Envelope)
deriving DecidableEq

/-- Embedding of `FileLogger.logFile(id)`. -/
def FileLogger.logFile (s : FileLogger) (id : String) : String :=
  s.logsPath ++ "/msg-" ++ id ++ ".txt"

/-- Embedding of `FileLogger.push(id, message)`.  When enabled it writes
the JSON-serialized message to `logFile(id)`, and a `writeFile` failure is
caught inside `push` itself and only logged; when disabled it only warns.
The function is total: `push` never throws (its asserts hold for any
string id and any Envelope, an object being always truthy). -/
def FileLogger.push (w : World) (s : FileLogger) (id : String) (m : Envelope) :
    FileLogger :=
  if s.isEnabled then
    if w.fileWriteFails then s
    else { s with files := (s.logFile id, m) :: s.files }
  else s

/-- The archival key used on the forward path: `id ?? generateId()` for the
broker-assigned `msg.properties.messageId`. -/
def forwardArchiveKey (messageId : Option String) (now : Nat) : String :=
  messageId.getD (generateId now)

/-- Embedding of `storeMessage(id, data)` from `src/runner.js`: defaults the
id, then attempts the redis push and the file push, each wrapped in a
`try`/`catch` that logs and swallows the error, and returns the id.  The
function is total — an archival failure never escapes. -/
def storeMessage (w : World) (rs : RedisLogger) (fs : FileLogger)
    (idOpt : Option String) (now : Nat) (data : Envelope) :
    RedisLogger × FileLogger × String :=
  let id := forwardArchiveKey idOpt now
  let rs1 := (RedisLogger.push w rs id data).1
  let fs1 := FileLogger.push w fs id data
  (rs1, fs1, id)

/-- The routing metadata destructured from an Envelope for error/warn logs:
`const {channel, exchange, routingKey, properties} = data`. -/
structure RoutingMeta where
  channel : Option Nat
  exchange : String
  routingKey : String
  properties : AMQPProperties
deriving DecidableEq

/-- The routing metadata of an Envelope. -/
def Envelope.meta (data : Envelope) : RoutingMeta :=
  { channel := data.channel
    exchange := data.exchange
    routingKey := data.routingKey
    properties := data.properties }

/-- Configuration read from the environment by `src/runner.js`:
`AMQP_DESTINATION_QUEUE` (optional), `PRINT_RETURNED_BODY === 'true'` and
`RETRY_ON_FAIL === 'true'`. -/
structure RelayConfig where
  destinationQueue : Option String
  printReturnedBody : Bool
  retryOnFail : Bool
deriving DecidableEq

/-- A publish performed on the destination channel: either
`queue.publish(body, properties)` on a named queue obtained via
`channel.queue(AMQP_DESTINATION_QUEUE)`, or
`channel.basicPublish(exchange, routingKey, body, properties, mandatory)`. -/
inductive Publish where
  | toQueue (queue : String) (body : String) (props : AMQPProperties)
  | toExchange (exchange : String) (routingKey : String) (body : String)
      (props : AMQPProperties) (mandatory : Bool)
deriving DecidableEq

/-- Payload of `events.emit('published', host, id, data)`. -/
structure PublishedEvent where
  host : String
  id : String
  envelope : Envelope
deriving DecidableEq

/-- Embedding of the destination host identifier
`channel.connection.host + ':' + channel.connection.port`. -/
def destHost (connHost : String) (connPort : Nat) : String :=
  connHost ++ ":" ++ toString connPort

/-- Embedding of `publishesMessage(channel, id, data)` from `src/runner.js`.
After `confirmSelect()`, the message is published either directly to the
configured destination queue by name, or to the original exchange and
routing key with the mandatory flag set; on success a `published` event is
emitted with the destination host, the id and the Envelope.  The error case
covers any rejection of the publish step (confirm nack, channel error). -/
def publishesMessage (w : World) (cfg : RelayConfig) (connHost : String)
    (connPort : Nat) (id : String) (data : Envelope) :
    Except Unit (Publish × PublishedEvent) :=
  if w.publishFails then
    Except.error ()
  else
    let pub :=
      match cfg.destinationQueue with
      | some q => Publish.toQueue q data.body data.properties
      | none =>
        Publish.toExchange data.exchange data.routingKey data.body
          data.properties true
    Except.ok (pub, { host := destHost connHost connPort, id := id, envelope := data })

/-- Resolution of the source delivery: `msg.ack(multiple)` or
`msg.nack(requeue, multiple)`, with the argument order of the broker
client's `AMQPMessage` methods. -/
inductive Resolution where
  | ack (multiple : Bool)
  | nack (requeue : Bool) (multiple : Bool)
deriving DecidableEq

/-- Observable outcome of running the consumer callback on one delivery. -/
structure HandlerResult where
  rs : RedisLogger
  fs : FileLogger
  resolution : Option Resolution
  publishes : List Publish
  publishedEvents : List PublishedEvent
  errorLogsMeta : List RoutingMeta
  uncaught : Option String
deriving DecidableEq

/-- Embedding of the consumer callback installed by `run()` in
`src/runner.js`.  On the success path it stores, publishes, and acks with
`msg.ack(false)`.  On a publish-step error the catch block first awaits
`msg.nack(true, false)`; it then evaluates the template literal
`` `Unable to wirte message with ID ${id} ...` `` — but `id` is declared
with `const` inside the `try` block and is not in scope in the catch, so
this evaluation raises `ReferenceError: id is not defined` and the
`logger.error({channel, exchange, routingKey, properties}, ...)` call on
the next line is never reached.  The `uncaught` field records the
exception escaping the callback. -/
def handleDelivery (w : World) (cfg : RelayConfig) (connHost : String)
    (connPort : Nat) (now : Nat) (rs : RedisLogger) (fs : FileLogger)
    (msg : AMQPMessage) : HandlerResult :=
  let data := formatMessage msg
  match storeMessage w rs fs msg.properties.messageId now data with
  | (rs1, fs1, id) =>
    match publishesMessage w cfg connHost connPort id data with
    | Except.ok (pub, ev) =>
      { rs := rs1, fs := fs1
        resolution := some (Resolution.ack false)
        publishes := [pub]
        publishedEvents := [ev]
        errorLogsMeta := []
        uncaught := none }
    | Except.error _ =>
      { rs := rs1, fs := fs1
        resolution := some (Resolution.nack true false)
        publishes := []
        publishedEvents := []
        errorLogsMeta := []
        uncaught := some "ReferenceError: id is not defined" }

/-- The archival key used by the Return Handler:
`` `returned-${msg.properties.messageId ?? generateId()}` ``. -/
def returnedArchiveKey (messageId : Option String) (now : Nat) : String :=
  "returned-" ++ messageId.getD (generateId now)

/-- A `logger.warn`/`log.warn` record from the Return Handler: the routing
metadata, plus the body exactly when the full Envelope was passed. -/
structure WarnLog where
  meta : RoutingMeta
  body : Option String
deriving DecidableEq

/-- Observable outcome of `handleReturnedMessage`. -/
structure ReturnResult where
  rs : RedisLogger
  fs : FileLogger
  storedId : String
  returnedEvent : Bool
  warnLogs : List WarnLog
  uncaught : Option String
deriving DecidableEq

/-- Embedding of `handleReturnedMessage(msg)` from `src/runner.js`: format
the returned delivery, archive it under `returned-` followed by the
message-id property or a fresh id, emit the `returned` event, and log a
warning.  When `PRINT_RETURNED_BODY === 'true'` the source calls
`log.warn(data, logMessage)` — but no binding named `log` exists in the
module (the logger is named `logger`), so that call raises
`ReferenceError: log is not defined` and nothing is logged; otherwise
`logger.warn` receives only the destructured routing metadata. -/
def handleReturnedMessage (w : World) (cfg : RelayConfig) (now : Nat)
    (rs : RedisLogger) (fs : FileLogger) (msg : AMQPMessage) : ReturnResult :=
  let data := formatMessage msg
  let id := msg.properties.messageId.getD (generateId now)
  match storeMessage w rs fs (some ("returned-" ++ id)) now data with
  | (rs1, fs1, storedId) =>
    if cfg.printReturnedBody then
      { rs := rs1, fs := fs1, storedId := storedId, returnedEvent := true
        warnLogs := []
        uncaught := some "ReferenceError: log is not defined" }
    else
      { rs := rs1, fs := fs1, storedId := storedId, returnedEvent := true
        warnLogs := [{ meta := data.meta, body := none }]
        uncaught := none }

/-- A connection handle as seen by `closeConnections`: whether it is
already closed, whether it exposes a `close` method, and whether calling
`close()` would reject. -/
structure Conn where
  closed : Bool
  hasClose : Bool
  closeFails : Bool
deriving DecidableEq

/-- Embedding of `conn.close()` on the broker client: on success the
connection becomes closed; otherwise the returned promise rejects. -/
def Conn.close (c : Conn) : Except Unit Conn :=
  if c.closeFails then Except.error ()
  else Except.ok { c with closed := true }

/-- Observable outcome of `closeConnections()`: the connection map after
the iteration, the keys for which a close was attempted, and the keys
whose close threw (each logged as `Unable to close ... connection.`). -/
structure CloseResult where
  conns : List (String × Conn)
  attempted : List String
  closeErrors : List String
deriving DecidableEq

/-- Embedding of `closeConnections()` from `src/runner.js`: iterate the
connection map; for each entry with `!conn.closed && conn.close`, await
`conn.close()` inside a `try`/`catch` that logs the failure and moves on.
The function is total — no close error propagates to the caller. -/
def closeConnections : List (String × Conn) → CloseResult
  | [] => { conns := [], attempted := [], closeErrors := [] }
  | (k, c) :: rest =>
    if !c.closed && c.hasClose then
      match c.close with
      | Except.ok c1 =>
        let r := closeConnections rest
        { conns := (k, c1) :: r.conns
          attempted := k :: r.attempted
          closeErrors := r.closeErrors }
      | Except.error _ =>
        let r := closeConnections rest
        { conns := (k, c) :: r.conns
          attempted := k :: r.attempted
          closeErrors := k :: r.closeErrors }
    else
      let r := closeConnections rest
      { conns := (k, c) :: r.conns
        attempted := r.attempted
        closeErrors := r.closeErrors }

/-- The steps of `run()`'s setup sequence, in source order. -/
inductive SetupStep where
  | connectSource
  | openSourceChannel
  | openSourceQueue
  | connectDest
  | openDestChannel
  | subscribe
deriving DecidableEq

/-- Failure flags for `run()`'s setup sequence, together with the close
behaviour of the two connections it would register. -/
structure SetupWorld where
  connectSourceFails : Bool
  openSourceChannelFails : Bool
  openSourceQueueFails : Bool
  connectDestFails : Bool
  openDestChannelFails : Bool
  subscribeFails : Bool
  sourceCloseFails : Bool
  destCloseFails : Bool
deriving DecidableEq

/-- A freshly opened broker connection handle. -/
def newConn (closeFails : Bool) : Conn :=
  { closed := false, hasClose := true, closeFails := closeFails }

/-- Embedding of the `try` block of `run()`: connect to the source, open
its channel, bind the queue passively, register `source` in the connection
map, connect to the destination, open its channel (installing the return
handler), register `dest`, and subscribe.  The result is the connection
map as populated when the sequence ends, together with the first failing
step if any. -/
def runSetup (sw : SetupWorld) : List (String × Conn) × Option SetupStep :=
  if sw.connectSourceFails then ([], some SetupStep.connectSource)
  else if sw.openSourceChannelFails then ([], some SetupStep.openSourceChannel)
  else if sw.openSourceQueueFails then ([], some SetupStep.openSourceQueue)
  else
    let m1 := [("source", newConn sw.sourceCloseFails)]
    if sw.connectDestFails then (m1, some SetupStep.connectDest)
    else if sw.openDestChannelFails then (m1, some SetupStep.openDestChannel)
    else
      let m2 := m1 ++ [("dest", newConn sw.destCloseFails)]
      if sw.subscribeFails then (m2, some SetupStep.subscribe)
      else (m2, none)

/-- How `run()` resolves: the consumer is installed, a retry of `run` is
scheduled via `setTimeout(run, 2000)` and the function returns normally,
or the error is rethrown to the caller. -/
inductive RunOutcome where
  | subscribed
  | retryScheduled (delayMs : Nat)
  | raised
deriving DecidableEq

/-- Observable outcome of one `run()` attempt. -/
structure RunResult where
  connMap : List (String × Conn)
  closedAll : Bool
  outcome : RunOutcome
deriving DecidableEq

/-- Embedding of `run()`'s control flow from `src/runner.js`: on any error
in the setup sequence the catch block logs it, awaits `closeConnections()`
unconditionally, and then either schedules `setTimeout(run, 2000)` and
returns without raising (when `RETRY_ON_FAIL === 'true'`) or rethrows. -/
def run (sw : SetupWorld) (retryOnFail : Bool) : RunResult :=
  match runSetup sw with
  | (m, none) =>
    { connMap := m, closedAll := false, outcome := RunOutcome.subscribed }
  | (m, some _) =>
    let r := closeConnections m
    { connMap := r.conns
      closedAll := true
      outcome :=
        if retryOnFail then RunOutcome.retryScheduled 2000
        else RunOutcome.raised }

/-!
Decimal representation of the millisecond clock.  `generateId` is
`String(Date.now())`, i.e. `Nat.repr`; the lemmas below relate
`Nat.toDigitsCore` from core to `Nat.digits` and derive injectivity of
`Nat.repr` and the fact that a decimal string never starts with `'r'`,
hence never equals a `returned-`-prefixed key.
-/

theorem toDigitsCore_eq (n : Nat) : ∀ (f : Nat), n < f → ∀ (acc : List Char),
    Nat.toDigitsCore 10 f n acc =
      (if n = 0 then ['0'] else ((Nat.digits 10 n).map Nat.digitChar).reverse) ++ acc := by
  induction n using Nat.strong_induction_on with
  | _ n ih =>
    intro f hf acc
    obtain ⟨g, rfl⟩ : ∃ g, f = g + 1 := ⟨f - 1, by omega⟩
    simp only [Nat.toDigitsCore]
    by_cases hdiv : n / 10 = 0
    · have hn10 : n < 10 := by omega
      simp only [hdiv, if_true]
      by_cases hn : n = 0
      · subst hn
        simp only [if_true, Nat.zero_mod]
        simp
        decide
      · have hd : Nat.digits 10 n = [n % 10] := by
          rw [Nat.digits_def' (by norm_num : 1 < 10) (Nat.pos_of_ne_zero hn), hdiv]
          simp
        simp [hn, hd]
    · have hn : n ≠ 0 := by omega
      have hlt : n / 10 < n := Nat.div_lt_self (Nat.pos_of_ne_zero hn) (by norm_num)
      have hltg : n / 10 < g := by omega
      simp only [hdiv, if_false]
      rw [ih (n / 10) hlt g hltg (Nat.digitChar (n % 10) :: acc)]
      have hd : Nat.digits 10 n = n % 10 :: Nat.digits 10 (n / 10) :=
        Nat.digits_def' (by norm_num : 1 < 10) (Nat.pos_of_ne_zero hn)
      simp [hd, hdiv, hn]

theorem repr_data_eq (n : Nat) :
    (Nat.repr n).data =
      (if n = 0 then ['0'] else ((Nat.digits 10 n).map Nat.digitChar).reverse) := by
  show (List.asString (Nat.toDigitsCore 10 (n + 1) n [])).data = _
  rw [toDigitsCore_eq n (n + 1) (Nat.lt_succ_self n) []]
  simp [List.asString]

theorem digitChar_inj_lt :
    ∀ a < 10, ∀ b < 10, Nat.digitChar a = Nat.digitChar b → a = b := by decide

theorem map_digitChar_inj : ∀ (l1 l2 : List Nat), (∀ x ∈ l1, x < 10) →
    (∀ x ∈ l2, x < 10) → l1.map Nat.digitChar = l2.map Nat.digitChar → l1 = l2 := by
  intro l1
  induction l1 with
  | nil => intro l2 _ _ h; cases l2 <;> simp_all
  | cons a t ihl =>
    intro l2 h1 h2 h
    cases l2 with
    | nil => simp_all
    | cons b t2 =>
      simp only [List.map_cons, List.cons.injEq] at h
      have ha : a = b :=
        digitChar_inj_lt a (h1 a (by simp)) b (h2 b (by simp)) h.1
      have ht : t = t2 :=
        ihl t2 (fun x hx => h1 x (by simp [hx])) (fun x hx => h2 x (by simp [hx])) h.2
      rw [ha, ht]

theorem repr_injective (m n : Nat) (h : Nat.repr m = Nat.repr n) : m = n := by
  have hd : (Nat.repr m).data = (Nat.repr n).data := by rw [h]
  rw [repr_data_eq, repr_data_eq] at hd
  by_cases hm : m = 0 <;> by_cases hn : n = 0
  · omega
  · exfalso
    simp only [hm, if_true, hn, if_false] at hd
    have hmap : (Nat.digits 10 n).map Nat.digitChar = ['0'] := by
      have := congrArg List.reverse hd
      simpa using this.symm
    have hdig : Nat.digits 10 n = [0] := by
      apply map_digitChar_inj _ [0]
      · intro x hx; exact Nat.digits_lt_base (by norm_num) hx
      · intro x hx; simp at hx; omega
      · simpa using hmap
    have := Nat.ofDigits_digits 10 n
    rw [hdig] at this
    simp [Nat.ofDigits] at this
    omega
  · exfalso
    simp only [hm, if_false, hn, if_true] at hd
    have hmap : (Nat.digits 10 m).map Nat.digitChar = ['0'] := by
      have := congrArg List.reverse hd
      simpa using this
    have hdig : Nat.digits 10 m = [0] := by
      apply map_digitChar_inj _ [0]
      · intro x hx; exact Nat.digits_lt_base (by norm_num) hx
      · intro x hx; simp at hx; omega
      · simpa using hmap
    have := Nat.ofDigits_digits 10 m
    rw [hdig] at this
    simp [Nat.ofDigits] at this
    omega
  · simp only [hm, hn, if_false] at hd
    have hmap : (Nat.digits 10 m).map Nat.digitChar = (Nat.digits 10 n).map Nat.digitChar :=
      List.reverse_injective hd
    have hdig : Nat.digits 10 m = Nat.digits 10 n := by
      apply map_digitChar_inj
      · intro x hx; exact Nat.digits_lt_base (by norm_num) hx
      · intro x hx; exact Nat.digits_lt_base (by norm_num) hx
      · exact hmap
    have h1 := Nat.ofDigits_digits 10 m
    have h2 := Nat.ofDigits_digits 10 n
    rw [← h1, ← h2, hdig]

theorem repr_head_digit (n : Nat) :
    ∃ k, k < 10 ∧ ∃ t, (Nat.repr n).data = Nat.digitChar k :: t := by
  rw [repr_data_eq]
  by_cases hn : n = 0
  · exact ⟨0, by norm_num, [], by simp [hn]; rfl⟩
  · simp only [hn, if_false]
    have hne : Nat.digits 10 n ≠ [] := Nat.digits_ne_nil_iff_ne_zero.mpr hn
    have hrev : (Nat.digits 10 n).reverse ≠ [] := by simpa using hne
    obtain ⟨k, t, hk⟩ := List.exists_cons_of_ne_nil hrev
    refine ⟨k, ?_, t.map Nat.digitChar, ?_⟩
    · have hmem : k ∈ (Nat.digits 10 n).reverse := by rw [hk]; simp
      exact Nat.digits_lt_base (by norm_num) (List.mem_reverse.mp hmem)
    · rw [← List.map_reverse, hk]
      simp

theorem repr_ne_returned_append (n : Nat) (x : String) :
    Nat.repr n ≠ "returned-" ++ x := by
  intro h
  have hd := congrArg String.data h
  rw [String.data_append] at hd
  obtain ⟨k, hk, t, ht⟩ := repr_head_digit n
  rw [ht] at hd
  have hr : "returned-".data = 'r' :: "eturned-".data := by decide
  rw [hr] at hd
  have hkr : Nat.digitChar k = 'r' := by
    have := congrArg (fun l => l.head?) hd
    simpa using this
  have hnr : ∀ j < 10, Nat.digitChar j ≠ 'r' := by decide
  exact hnr k hk hkr

/-! Helper lemmas about `closeConnections` and the redis state. -/

theorem closeConnections_attempted (conns : List (String × Conn)) :
    (closeConnections conns).attempted
      = (conns.filter (fun p => !p.2.closed && p.2.hasClose)).map Prod.fst := by
  induction conns with
  | nil => rfl
  | cons hd rest ih =>
    obtain ⟨k, c⟩ := hd
    by_cases hcond : (!c.closed && c.hasClose) = true
    · by_cases hfail : c.closeFails = true
      · simp [closeConnections, Conn.close, hcond, hfail, ih]
      · simp only [Bool.not_eq_true] at hfail
        simp [closeConnections, Conn.close, hcond, hfail, ih]
    · simp only [Bool.not_eq_true] at hcond
      simp [closeConnections, hcond, ih]

theorem closeConnections_errors (conns : List (String × Conn)) :
    (closeConnections conns).closeErrors
      = (conns.filter (fun p => !p.2.closed && (p.2.hasClose && p.2.closeFails))).map Prod.fst := by
  induction conns with
  | nil => rfl
  | cons hd rest ih =>
    obtain ⟨k, c⟩ := hd
    by_cases hcond : (!c.closed && c.hasClose) = true
    · by_cases hfail : c.closeFails = true
      · simp only [Bool.and_eq_true] at hcond
        simp [closeConnections, Conn.close, hcond, hfail, ih]
      · simp only [Bool.not_eq_true] at hfail
        simp only [Bool.and_eq_true] at hcond
        simp [closeConnections, Conn.close, hcond, hfail, ih]
    · rw [Bool.and_eq_true, Classical.not_and_iff_or_not_not] at hcond
      rcases hcond with hcl | hcl <;> simp only [Bool.not_eq_true, Bool.not_eq_true'] at hcl <;>
        simp [closeConnections, hcl, ih]

theorem closeConnections_conns (conns : List (String × Conn)) :
    (closeConnections conns).conns
      = conns.map (fun p =>
          (p.1, if !p.2.closed && (p.2.hasClose && !p.2.closeFails)
                then { p.2 with closed := true } else p.2)) := by
  induction conns with
  | nil => rfl
  | cons hd rest ih =>
    obtain ⟨k, c⟩ := hd
    by_cases hcond : (!c.closed && c.hasClose) = true
    · simp only [Bool.and_eq_true, Bool.not_eq_true'] at hcond
      obtain ⟨h1, h2⟩ := hcond
      by_cases hfail : c.closeFails = true
      · simp [closeConnections, Conn.close, h1, h2, hfail, ih]
      · simp only [Bool.not_eq_true] at hfail
        simp [closeConnections, Conn.close, h1, h2, hfail, ih]
    · rw [Bool.and_eq_true, Classical.not_and_iff_or_not_not] at hcond
      rcases hcond with hcl | hcl <;> simp only [Bool.not_eq_true, Bool.not_eq_true'] at hcl <;>
        simp [closeConnections, hcl, ih]

theorem RedisLogger.init_store (w : World) (s : RedisLogger) :
    (RedisLogger.init w s).1.store = s.store := by
  unfold RedisLogger.init
  by_cases hs : s.started <;> by_cases he : s.isEnabled <;>
    by_cases hc : w.redisConnectFails <;> simp [hs, he, hc]

theorem RedisLogger.push_store_setFails (w : World) (s : RedisLogger)
    (id : String) (m : Envelope) (h : w.redisSetFails = true) :
    ((RedisLogger.push w s id m).1).store = s.store := by
  unfold RedisLogger.push
  have hst := RedisLogger.init_store w s
  rcases hi : RedisLogger.init w s with ⟨s1, ob⟩
  rw [hi] at hst
  rcases ob with _ | b
  · simpa using hst
  · rcases b <;> simp [h] <;> simpa using hst

/-! Concrete sample values, used by witnesses and counterexamples. -/

/-- Empty broker properties. -/
def props0 : AMQPProperties :=
  { messageId := none, contentType := none, headers := [] }

/-- Properties carrying a broker-assigned message id. -/
def propsWith (s : String) : AMQPProperties :=
  { props0 with messageId := some s }

/-- A world where every external operation succeeds. -/
def wOk : World :=
  { redisConnectFails := false, redisSetFails := false
    fileWriteFails := false, publishFails := false }

/-- A world where the destination publish fails. -/
def wPubFail : World :=
  { wOk with publishFails := true }

/-- A world where both archival writes fail. -/
def wArchFail : World :=
  { wOk with redisSetFails := true, fileWriteFails := true }

/-- A fresh redis logger with a configured redis URL. -/
def rs0 : RedisLogger :=
  { isEnabled := true, started := false, store := [] }

/-- A fresh file logger at the default path. -/
def fs0 : FileLogger :=
  { isEnabled := true, logsPath := "/logs/events", files := [] }

/-- Configuration with no destination queue, quiet returned-body logging,
and no retry. -/
def cfg0 : RelayConfig :=
  { destinationQueue := none, printReturnedBody := false, retryOnFail := false }

/-- Configuration with `PRINT_RETURNED_BODY` set to the string true. -/
def cfgVerbose : RelayConfig :=
  { cfg0 with printReturnedBody := true }

/-- A sample delivery without a broker-assigned message id. -/
def msgA : AMQPMessage :=
  { channelId := some 1, exchange := "test-exchange", routingKey := "rk"
    properties := props0, body := "payload-a" }

/-- A second sample delivery without a broker id, differing from `msgA`. -/
def msgB : AMQPMessage :=
  { channelId := some 1, exchange := "test-exchange", routingKey := "rk"
    properties := props0, body := "payload-b" }

/-- A delivery with broker message id `m-1`. -/
def msgM1 : AMQPMessage :=
  { channelId := some 1, exchange := "test-exchange", routingKey := ""
    properties := propsWith "m-1", body := "payload-1" }

/-- A delivery with broker message id `m-2`. -/
def msgM2 : AMQPMessage :=
  { channelId := some 1, exchange := "test-exchange", routingKey := ""
    properties := propsWith "m-2", body := "payload-2" }

/-- A forward-path delivery whose broker id itself starts with
`returned-`. -/
def msgF : AMQPMessage :=
  { channelId := some 1, exchange := "e", routingKey := "r1"
    properties := propsWith "returned-77", body := "forward-body" }

/-- A returned delivery with broker id `77`. -/
def msgR : AMQPMessage :=
  { channelId := some 2, exchange := "e2", routingKey := "r2"
    properties := propsWith "77", body := "returned-body" }

/-- Configuration with an explicit destination queue name. -/
def cfgQueue : RelayConfig :=
  { cfg0 with destinationQueue := some "test-dest" }

/-- C1: for every delivery received from the source queue for which the
publish step completes successfully, the Relay Engine acknowledges the
source delivery positively without requeueing (`msg.ack(false)`, so
multiple=false and no requeue) and emits a `published` event carrying the
destination host identifier, the message id, and the Envelope. -/
theorem publish_success_acks_and_emits (w : World) (cfg : RelayConfig)
    (connHost : String) (connPort : Nat) (now : Nat)
    (rs : RedisLogger) (fs : FileLogger) (msg : AMQPMessage)
    (hpub : w.publishFails = false) :
    (handleDelivery w cfg connHost connPort now rs fs msg).resolution
        = some (Resolution.ack false) ∧
    (handleDelivery w cfg connHost connPort now rs fs msg).publishedEvents
        = [{ host := destHost connHost connPort
             id := forwardArchiveKey msg.properties.messageId now
             envelope := formatMessage msg }] := by
  cases hq : cfg.destinationQueue <;>
    simp [handleDelivery, storeMessage, publishesMessage, hpub, hq]

/-- C1 witness: the successful-publish theorem applied at a concrete
delivery, world and configuration. -/
theorem publish_success_acks_and_emits_witness :
    wOk.publishFails = false ∧
    ((handleDelivery wOk cfg0 "dest-mq.localhost" 5672 7 rs0 fs0 msgA).resolution
        = some (Resolution.ack false) ∧
     (handleDelivery wOk cfg0 "dest-mq.localhost" 5672 7 rs0 fs0 msgA).publishedEvents
        = [{ host := destHost "dest-mq.localhost" 5672
             id := forwardArchiveKey msgA.properties.messageId 7
             envelope := formatMessage msgA }]) :=
  ⟨rfl, publish_success_acks_and_emits wOk cfg0 "dest-mq.localhost" 5672 7 rs0 fs0 msgA rfl⟩

/-- C3: republishing uses the exact `properties` and `body` received.  The
message published to the destination carries the source delivery's
properties and body unmodified; with no destination queue configured the
publish goes to the original exchange and routing key with the mandatory
flag set, and with a configured queue name it goes directly to that queue
by name. -/
theorem republish_uses_exact_properties_and_body (w : World) (cfg : RelayConfig)
    (connHost : String) (connPort : Nat) (id : String) (msg : AMQPMessage)
    (hpub : w.publishFails = false) :
    (cfg.destinationQueue = none →
      publishesMessage w cfg connHost connPort id (formatMessage msg) =
        Except.ok
          (Publish.toExchange msg.exchange msg.routingKey msg.body msg.properties true,
           { host := destHost connHost connPort, id := id, envelope := formatMessage msg })) ∧
    (∀ q, cfg.destinationQueue = some q →
      publishesMessage w cfg connHost connPort id (formatMessage msg) =
        Except.ok
          (Publish.toQueue q msg.body msg.properties,
           { host := destHost connHost connPort, id := id, envelope := formatMessage msg })) := by
  constructor
  · intro hq
    simp [publishesMessage, hpub, hq, formatMessage]
  · intro q hq
    simp [publishesMessage, hpub, hq, formatMessage]

/-- C3 witness: the exact-forwarding theorem applied at a concrete
delivery with no configured destination queue. -/
theorem republish_uses_exact_properties_and_body_witness :
    wOk.publishFails = false ∧
    (((cfg0.destinationQueue = none →
      publishesMessage wOk cfg0 "dest-mq.localhost" 5673 "id-1" (formatMessage msgA) =
        Except.ok
          (Publish.toExchange msgA.exchange msgA.routingKey msgA.body msgA.properties true,
           { host := destHost "dest-mq.localhost" 5673, id := "id-1"
             envelope := formatMessage msgA })) ∧
    (∀ q, cfg0.destinationQueue = some q →
      publishesMessage wOk cfg0 "dest-mq.localhost" 5673 "id-1" (formatMessage msgA) =
        Except.ok
          (Publish.toQueue q msgA.body msgA.properties,
           { host := destHost "dest-mq.localhost" 5673, id := "id-1"
             envelope := formatMessage msgA })))) :=
  ⟨rfl, republish_uses_exact_properties_and_body wOk cfg0 "dest-mq.localhost" 5673 "id-1" msgA rfl⟩

/-- C4: a failure of the archival step (the redis push or the file push) is
logged and swallowed.  With both archival writes failing and the publish
succeeding, the delivery is still published and positively acknowledged, no
negative acknowledgement occurs, and no archival record is produced. -/
theorem archival_failure_never_blocks_relay (w : World) (cfg : RelayConfig)
    (connHost : String) (connPort : Nat) (now : Nat)
    (rs : RedisLogger) (fs : FileLogger) (msg : AMQPMessage)
    (hredis : w.redisSetFails = true) (hfile : w.fileWriteFails = true)
    (hpub : w.publishFails = false) :
    (handleDelivery w cfg connHost connPort now rs fs msg).resolution
        = some (Resolution.ack false) ∧
    (handleDelivery w cfg connHost connPort now rs fs msg).publishedEvents.length = 1 ∧
    (∀ rq mu, (handleDelivery w cfg connHost connPort now rs fs msg).resolution
        ≠ some (Resolution.nack rq mu)) ∧
    (handleDelivery w cfg connHost connPort now rs fs msg).rs.store = rs.store ∧
    (handleDelivery w cfg connHost connPort now rs fs msg).fs.files = fs.files := by
  have hstore := RedisLogger.push_store_setFails w rs
    (forwardArchiveKey msg.properties.messageId now) (formatMessage msg) hredis
  cases hq : cfg.destinationQueue <;>
    simp [handleDelivery, storeMessage, publishesMessage, FileLogger.push,
      hpub, hq, hfile, hstore]

/-- C4 witness: the archival-failure theorem applied at a concrete
delivery in a world where both archival writes fail. -/
theorem archival_failure_never_blocks_relay_witness :
    wArchFail.redisSetFails = true ∧ wArchFail.fileWriteFails = true ∧
    wArchFail.publishFails = false ∧
    ((handleDelivery wArchFail cfg0 "dest-mq.localhost" 5673 4 rs0 fs0 msgA).resolution
        = some (Resolution.ack false) ∧
     (handleDelivery wArchFail cfg0 "dest-mq.localhost" 5673 4 rs0 fs0 msgA).publishedEvents.length = 1 ∧
     (∀ rq mu, (handleDelivery wArchFail cfg0 "dest-mq.localhost" 5673 4 rs0 fs0 msgA).resolution
        ≠ some (Resolution.nack rq mu)) ∧
     (handleDelivery wArchFail cfg0 "dest-mq.localhost" 5673 4 rs0 fs0 msgA).rs.store = rs0.store ∧
     (handleDelivery wArchFail cfg0 "dest-mq.localhost" 5673 4 rs0 fs0 msgA).fs.files = fs0.files) :=
  ⟨rfl, rfl, rfl,
    archival_failure_never_blocks_relay wArchFail cfg0 "dest-mq.localhost" 5673 4 rs0 fs0 msgA
      rfl rfl rfl⟩

/-- C2 (code-bug evidence): on a publish-step error the consumer callback
does negative-acknowledge the source delivery with `msg.nack(true, false)`
— requeue requested, no batching — but it then raises
`ReferenceError: id is not defined`, because the catch block reads the
`const id` that is scoped to the `try` block, so the routing-metadata
error log is never produced. -/
theorem publish_error_nacks_then_crashes_logging :
    (handleDelivery wPubFail cfg0 "dest-mq.localhost" 5673 7 rs0 fs0 msgA).resolution
        = some (Resolution.nack true false) ∧
    (handleDelivery wPubFail cfg0 "dest-mq.localhost" 5673 7 rs0 fs0 msgA).errorLogsMeta = [] ∧
    (handleDelivery wPubFail cfg0 "dest-mq.localhost" 5673 7 rs0 fs0 msgA).uncaught
        = some "ReferenceError: id is not defined" :=
  ⟨rfl, rfl, rfl⟩

/-- C5: if any error occurs during `run()`'s connect-source,
connect-destination, or subscribe sequence, `closeConnections()` is
invoked unconditionally; with the retry flag enabled another `run()` is
scheduled after a fixed 2000 ms delay and no error is raised, and with it
disabled the error is re-raised to the caller. -/
theorem run_error_closes_then_retries_or_raises (sw : SetupWorld) (retryOnFail : Bool)
    (step : SetupStep) (herr : (runSetup sw).2 = some step) :
    (run sw retryOnFail).closedAll = true ∧
    (retryOnFail = true → (run sw retryOnFail).outcome = RunOutcome.retryScheduled 2000) ∧
    (retryOnFail = false → (run sw retryOnFail).outcome = RunOutcome.raised) := by
  rcases h : runSetup sw with ⟨m, o⟩
  rw [h] at herr
  cases o with
  | none => simp at herr
  | some s =>
    unfold run
    rw [h]
    refine ⟨rfl, ?_, ?_⟩ <;> intro hr <;> simp [hr]

/-- A setup world whose very first step (source connect) fails. -/
def swFail : SetupWorld :=
  { connectSourceFails := true, openSourceChannelFails := false
    openSourceQueueFails := false, connectDestFails := false
    openDestChannelFails := false, subscribeFails := false
    sourceCloseFails := false, destCloseFails := false }

/-- C5 witness: the run-error theorem applied to a failing source connect
with the retry flag enabled. -/
theorem run_error_closes_then_retries_or_raises_witness :
    (runSetup swFail).2 = some SetupStep.connectSource ∧
    ((run swFail true).closedAll = true ∧
     (true = true → (run swFail true).outcome = RunOutcome.retryScheduled 2000) ∧
     (true = false → (run swFail true).outcome = RunOutcome.raised)) :=
  ⟨rfl, run_error_closes_then_retries_or_raises swFail true SetupStep.connectSource rfl⟩

/-- Result of relaying the first of two consecutive deliveries with redis
archival enabled. -/
def firstRelay : HandlerResult :=
  handleDelivery wOk cfg0 "dest-mq.localhost" 5673 1 rs0 fs0 msgM1

/-- Result of relaying the second delivery through the same logger
instances. -/
def secondRelay : HandlerResult :=
  handleDelivery wOk cfg0 "dest-mq.localhost" 5673 2 firstRelay.rs firstRelay.fs msgM2

/-- C6 (code-bug evidence): with redis archival enabled both deliveries
are relayed successfully, and the first leaves a record retrievable under
its id, but the second leaves no record at all: `RedisLogger.init` falls
through without a return value once `started` is true, and `push` treats
that `undefined` as failure and skips `redis.set`. -/
theorem redis_archival_skips_after_first_message :
    firstRelay.resolution = some (Resolution.ack false) ∧
    secondRelay.resolution = some (Resolution.ack false) ∧
    (firstRelay.rs.store.find? (fun p => p.1 == "m-1")).map (·.2)
        = some (formatMessage msgM1) ∧
    secondRelay.rs.store.find? (fun p => p.1 == "m-2") = none := by
  decide

/-- C7 counterexample: two distinct in-flight deliveries, neither carrying
a broker message id, processed in the same millisecond, are assigned the
same Envelope id. -/
theorem same_millisecond_ids_collide :
    msgA ≠ msgB ∧
    msgA.properties.messageId = none ∧
    msgB.properties.messageId = none ∧
    (handleDelivery wOk cfg0 "h" 1 111 rs0 fs0 msgA).publishedEvents.map PublishedEvent.id
      = (handleDelivery wOk cfg0 "h" 1 111 rs0 fs0 msgB).publishedEvents.map PublishedEvent.id ∧
    (handleDelivery wOk cfg0 "h" 1 111 rs0 fs0 msgA).publishedEvents.map PublishedEvent.id
      = ["111"] := by
  decide

/-- C7 amended: the Envelope id is the broker-assigned message id when
present and the decimal rendering of the millisecond clock otherwise, and
two locally generated ids are distinct whenever their generation
timestamps are distinct (two messages lacking broker ids that share a
millisecond share an id). -/
theorem envelope_id_source_and_clock_uniqueness (mid : Option String) (s : String)
    (now n1 n2 : Nat) (hne : n1 ≠ n2) :
    (mid = some s → forwardArchiveKey mid now = s) ∧
    (mid = none → forwardArchiveKey mid now = generateId now) ∧
    forwardArchiveKey none n1 ≠ forwardArchiveKey none n2 := by
  refine ⟨?_, ?_, ?_⟩
  · intro h; rw [h]; rfl
  · intro h; rw [h]; rfl
  · intro h
    exact hne (repr_injective n1 n2 h)

/-- C7 witness: the amended id theorem applied at broker id `m-1` and
timestamps 1 and 2. -/
theorem envelope_id_source_and_clock_uniqueness_witness :
    (1 : Nat) ≠ 2 ∧
    ((some "m-1" = some "m-1" → forwardArchiveKey (some "m-1") 3 = "m-1") ∧
     ((some "m-1" : Option String) = none → forwardArchiveKey (some "m-1") 3 = generateId 3) ∧
     forwardArchiveKey none 1 ≠ forwardArchiveKey none 2) :=
  ⟨by decide, envelope_id_source_and_clock_uniqueness (some "m-1") "m-1" 3 1 2 (by decide)⟩

/-- C8 counterexample: a forward-path delivery whose broker message id is
itself the string `returned-77` is archived under exactly the key that the
Return Handler uses for a returned delivery with broker id `77`. -/
theorem forward_key_collides_with_returned_key :
    msgF ≠ msgR ∧
    (handleDelivery wOk cfg0 "h" 1 5 rs0 fs0 msgF).rs.store.map Prod.fst = ["returned-77"] ∧
    (handleReturnedMessage wOk cfg0 9 rs0 fs0 msgR).storedId = "returned-77" := by
  decide

/-- C8 amended: every returned delivery is archived under a
`returned-`-prefixed id (the original message-id property if present, else
a fresh one) and a `returned` event is emitted; a returned-message key
never collides with a forward-path key that is locally generated or whose
broker message id does not itself start with `returned-`. -/
theorem returned_archival_prefixed_and_distinct (w : World) (cfg : RelayConfig)
    (now : Nat) (rs : RedisLogger) (fs : FileLogger) (msg : AMQPMessage)
    (fmid : Option String) (n m : Nat) (rmid : Option String)
    (hno : ∀ s x, fmid = some s → s ≠ "returned-" ++ x) :
    (handleReturnedMessage w cfg now rs fs msg).storedId
        = returnedArchiveKey msg.properties.messageId now ∧
    (handleReturnedMessage w cfg now rs fs msg).returnedEvent = true ∧
    forwardArchiveKey fmid n ≠ returnedArchiveKey rmid m := by
  refine ⟨?_, ?_, ?_⟩
  · cases hv : cfg.printReturnedBody <;>
      simp [handleReturnedMessage, storeMessage, forwardArchiveKey,
        returnedArchiveKey, hv]
  · cases hv : cfg.printReturnedBody <;>
      simp [handleReturnedMessage, storeMessage, hv]
  · cases fmid with
    | none =>
      intro h
      exact repr_ne_returned_append n (rmid.getD (generateId m)) h
    | some s =>
      intro h
      exact hno s (rmid.getD (generateId m)) rfl h

/-- C8 witness: the amended return-archival theorem applied at a concrete
returned delivery and a locally generated forward key. -/
theorem returned_archival_prefixed_and_distinct_witness :
    (∀ s x, (none : Option String) = some s → s ≠ "returned-" ++ x) ∧
    ((handleReturnedMessage wOk cfg0 9 rs0 fs0 msgR).storedId
        = returnedArchiveKey msgR.properties.messageId 9 ∧
     (handleReturnedMessage wOk cfg0 9 rs0 fs0 msgR).returnedEvent = true ∧
     forwardArchiveKey none 3 ≠ returnedArchiveKey (some "77") 4) :=
  ⟨fun _ _ h => (nomatch h),
   returned_archival_prefixed_and_distinct wOk cfg0 9 rs0 fs0 msgR none 3 4 (some "77")
     (fun _ _ h => (nomatch h))⟩

/-- C9 (code-bug evidence): for a returned delivery with the
verbose-return-body flag set, the handler logs no warning at all and
raises `ReferenceError: log is not defined` (the source calls `log.warn`
but the module's logger binding is named `logger`); with the flag unset it
logs the routing metadata without the body, as specified. -/
theorem returned_warning_verbose_crashes :
    (handleReturnedMessage wOk cfgVerbose 9 rs0 fs0 msgR).warnLogs = [] ∧
    (handleReturnedMessage wOk cfgVerbose 9 rs0 fs0 msgR).uncaught
        = some "ReferenceError: log is not defined" ∧
    (handleReturnedMessage wOk cfg0 9 rs0 fs0 msgR).warnLogs
        = [{ meta := (formatMessage msgR).meta, body := none }] ∧
    (handleReturnedMessage wOk cfg0 9 rs0 fs0 msgR).uncaught = none :=
  ⟨rfl, rfl, rfl, rfl⟩

/-- C10: `closeConnections` attempts a close for exactly the registered
connections that are not already closed and expose a `close` method; a
failing close is recorded (logged) without preventing the other attempts;
no close error propagates (the function is total); it does nothing on an
empty registry; and when no close fails a second invocation attempts
nothing. -/
theorem closeConnections_best_effort_idempotent (conns : List (String × Conn)) :
    (closeConnections conns).attempted
        = (conns.filter (fun p => !p.2.closed && p.2.hasClose)).map Prod.fst ∧
    (closeConnections conns).closeErrors
        = (conns.filter (fun p => !p.2.closed && (p.2.hasClose && p.2.closeFails))).map Prod.fst ∧
    closeConnections ([] : List (String × Conn))
        = { conns := [], attempted := [], closeErrors := [] } ∧
    ((∀ p ∈ conns, p.2.closeFails = false) →
      (closeConnections (closeConnections conns).conns).attempted = []) := by
  refine ⟨closeConnections_attempted conns, closeConnections_errors conns, rfl, ?_⟩
  intro hok
  rw [closeConnections_attempted, closeConnections_conns]
  rw [List.map_eq_nil_iff]
  rw [List.filter_eq_nil_iff]
  intro a ha
  obtain ⟨p, hp, rfl⟩ := List.mem_map.mp ha
  have hf := hok p hp
  by_cases hcond : (!p.2.closed && (p.2.hasClose && !p.2.closeFails)) = true
  · simp [hcond]
  · simp only [hcond, if_false]
    rw [Bool.and_eq_true, Classical.not_and_iff_or_not_not] at hcond
    rcases hcond with hcl | hcl
    · simp only [Bool.not_eq_true, Bool.not_eq_true'] at hcl
      simp [hcl]
    · rw [Bool.and_eq_true, Classical.not_and_iff_or_not_not] at hcl
      rcases hcl with hcl | hcl
      · simp only [Bool.not_eq_true] at hcl
        simp [hcl]
      · simp only [Bool.not_eq_true, Bool.not_eq_true'] at hcl
        rw [hf] at hcl
        exact absurd rfl hcl

/-- A sample connection registry: one open connection that closes cleanly
and one that is already closed. -/
def connsSample : List (String × Conn) :=
  [("source", { closed := false, hasClose := true, closeFails := false }),
   ("dest", { closed := true, hasClose := true, closeFails := false })]

/-- C10 witness: the close-all theorem applied to a concrete registry. -/
theorem closeConnections_best_effort_idempotent_witness :
    (closeConnections connsSample).attempted
        = (connsSample.filter (fun p => !p.2.closed && p.2.hasClose)).map Prod.fst ∧
    (closeConnections connsSample).closeErrors
        = (connsSample.filter
            (fun p => !p.2.closed && (p.2.hasClose && p.2.closeFails))).map Prod.fst ∧
    closeConnections ([] : List (String × Conn))
        = { conns := [], attempted := [], closeErrors := [] } ∧
    ((∀ p ∈ connsSample, p.2.closeFails = false) →
      (closeConnections (closeConnections connsSample).conns).attempted = []) :=
  closeConnections_best_effort_idempotent connsSample

end AmqpMigration
